import Mathlib

/-!
Verification of the geometry/layout core of hyprmon (src/models.go, constants
from src/hyprland.go).

Modelling conventions of the shallow embedding:
* Go `float32` arithmetic is modelled exactly over `ℚ` (every concrete input
  used below is exactly representable and produces the same results in
  `float32`).
* Go `int32`/`int` values are modelled as `ℤ` (no overflow occurs in the
  scenarios the claims quantify over).
* Go's `int32(f)` / `int(f)` conversion of a float truncates toward zero;
  this is `rtrunc` below.
* Go's integer division truncates toward zero; this is `Int.tdiv`
  (`goDiv` below).
* Struct fields not read or written by the embedded operations (UI sub-view
  state, mirror bookkeeping, EDID data, mode lists, status strings) are
  omitted.  Field defaults are the Go zero values.
-/

namespace HyprMon

/-- Go conversion `int32(f)` of a float value: truncation toward zero. -/
def rtrunc (q : ℚ) : ℤ := if q < 0 then -⌊-q⌋ else ⌊q⌋

/-- Go integer division on `int32`: truncation toward zero. -/
def goDiv (a b : ℤ) : ℤ := Int.tdiv a b

/-- Embeds `abs` (src/models.go:320-325); named `goAbs` because `abs` would
clash with Mathlib's lattice `abs`. -/
def goAbs (x : ℤ) : ℤ := if x < 0 then -x else x

/- Constants from src/hyprland.go:26-35. -/

def defaultWorldWidth : ℤ := 3840

def defaultWorldHeight : ℤ := 2160

def defaultWorldScale : ℚ := 1

def worldPaddingPx : ℤ := 500

def desktopBorderMargin : ℤ := 3

def desktopFooterHeight : ℤ := 10

/-- Monitor (src/models.go:13-40), restricted to the fields the embedded
operations read or write. -/
structure Monitor where
  Name : String := ""
  PxW : ℕ := 0
  PxH : ℕ := 0
  Hz : ℚ := 0
  Scale : ℚ := 0
  X : ℤ := 0
  Y : ℤ := 0
  Active : Bool := false
  Transform : ℤ := 0
  Dragging : Bool := false
  DragOffX : ℤ := 0
  DragOffY : ℤ := 0
  deriving Repr, DecidableEq, Inhabited

/-- SnapMode (src/models.go:42-49). -/
inductive SnapMode where
  | SnapOff
  | SnapEdges
  | SnapCenters
  | SnapBoth
  deriving Repr, DecidableEq, Inhabited

export SnapMode (SnapOff SnapEdges SnapCenters SnapBoth)

/-- world (src/models.go:51-59). -/
structure world where
  Width : ℤ := 0
  Height : ℤ := 0
  TermW : ℤ := 0
  TermH : ℤ := 0
  Scale : ℚ := 0
  OffsetX : ℤ := 0
  OffsetY : ℤ := 0
  deriving Repr, DecidableEq, Inhabited

/-- guide (src/models.go:61-64); the Go field `Type` is called `Ty` here
because `Type` is reserved in Lean. -/
structure guide where
  Ty : String := ""
  Value : ℤ := 0
  deriving Repr, DecidableEq, Inhabited

/-- model (src/models.go:66-97), restricted to the fields the embedded
operations read or write. -/
structure model where
  Monitors : List Monitor := []
  Selected : ℤ := 0
  GridPx : ℤ := 0
  Snap : SnapMode := SnapOff
  SnapThresh : ℤ := 0
  World : world := {}
  Guides : List guide := []
  deriving Repr, DecidableEq, Inhabited

/-- getEffectiveDimensions (src/models.go:152-162).  The Go receiver `m` is
unused by the body and is dropped. -/
def getEffectiveDimensions (mon : Monitor) : ℤ × ℤ :=
  let scaledWidth := rtrunc ((mon.PxW : ℚ) / mon.Scale)
  let scaledHeight := rtrunc ((mon.PxH : ℚ) / mon.Scale)
  if mon.Transform = 1 ∨ mon.Transform = 3 ∨ mon.Transform = 5 ∨ mon.Transform = 7 then
    (scaledHeight, scaledWidth)
  else
    (scaledWidth, scaledHeight)

/-- updateWorld (src/models.go:120-149).  Note both branches build a fresh
`world` literal, so the viewport fields and offsets are reset to the Go zero
value. -/
def updateWorld (m : model) : model :=
  if m.Monitors.isEmpty then
    { m with World := { Width := defaultWorldWidth, Height := defaultWorldHeight,
                        TermW := 0, TermH := 0, Scale := defaultWorldScale,
                        OffsetX := 0, OffsetY := 0 } }
  else
    let r := m.Monitors.foldl
      (fun acc mon =>
        let scaledWidth := rtrunc ((mon.PxW : ℚ) / mon.Scale)
        let scaledHeight := rtrunc ((mon.PxH : ℚ) / mon.Scale)
        (if acc.1 < mon.X + scaledWidth then mon.X + scaledWidth else acc.1,
         if acc.2 < mon.Y + scaledHeight then mon.Y + scaledHeight else acc.2))
      ((0 : ℤ), (0 : ℤ))
    { m with World := { Width := r.1 + worldPaddingPx, Height := r.2 + worldPaddingPx,
                        TermW := 0, TermH := 0, Scale := defaultWorldScale,
                        OffsetX := 0, OffsetY := 0 } }

/-- The local `desktopWidth` of worldToTerm/termToWorld
(src/models.go:167,177). -/
def desktopWidth (m : model) : ℤ := m.World.TermW - desktopBorderMargin

/-- The local `desktopHeight` of worldToTerm/termToWorld
(src/models.go:168,178). -/
def desktopHeight (m : model) : ℤ := m.World.TermH - desktopFooterHeight

/-- worldToTerm (src/models.go:164-172). -/
def worldToTerm (m : model) (x y : ℤ) : ℤ × ℤ :=
  let termX := rtrunc (((x - m.World.OffsetX : ℤ) : ℚ) * ((desktopWidth m : ℤ) : ℚ) /
    ((m.World.Width : ℤ) : ℚ))
  let termY := rtrunc (((y - m.World.OffsetY : ℤ) : ℚ) * ((desktopHeight m : ℤ) : ℚ) /
    ((m.World.Height : ℤ) : ℚ))
  (termX, termY)

/-- termToWorld (src/models.go:174-182). -/
def termToWorld (m : model) (x y : ℤ) : ℤ × ℤ :=
  let worldX := rtrunc (((x : ℤ) : ℚ) * ((m.World.Width : ℤ) : ℚ) /
    ((desktopWidth m : ℤ) : ℚ)) + m.World.OffsetX
  let worldY := rtrunc (((y : ℤ) : ℚ) * ((m.World.Height : ℤ) : ℚ) /
    ((desktopHeight m : ℤ) : ℚ)) + m.World.OffsetY
  (worldX, worldY)

/-- The containment test of hitTest (src/models.go:190-192): half-open box
at the monitor's position, with rotation-aware effective dimensions. -/
def inEffectiveBox (mon : Monitor) (wx wy : ℤ) : Prop :=
  mon.X ≤ wx ∧ wx < mon.X + (getEffectiveDimensions mon).1 ∧
  mon.Y ≤ wy ∧ wy < mon.Y + (getEffectiveDimensions mon).2

instance (mon : Monitor) (wx wy : ℤ) : Decidable (inEffectiveBox mon wx wy) := by
  unfold inEffectiveBox; infer_instance

/-- The loop of hitTest (src/models.go:186-195), carrying the running index. -/
def hitTestAux (wx wy : ℤ) : List Monitor → ℕ → ℤ
  | [], _ => -1
  | mon :: rest, i =>
    if inEffectiveBox mon wx wy then (i : ℤ) else hitTestAux wx wy rest (i + 1)

/-- hitTest (src/models.go:185-197). -/
def hitTest (m : model) (x y : ℤ) : ℤ :=
  let w := termToWorld m x y
  hitTestAux w.1 w.2 m.Monitors 0

/-- The body of snapPosition's loop for one `other` monitor that was not
skipped (src/models.go:258-305).  The state is `(newX, newY, guides)`; all
comparisons use the original proposed coordinates `x`, `y`, exactly as in the
source. -/
def snapStep (m : model) (mon : Monitor) (x y : ℤ) (other : Monitor)
    (st : ℤ × ℤ × List guide) : ℤ × ℤ × List guide :=
  let thresh : ℤ := m.SnapThresh
  let newX := st.1
  let newY := st.2.1
  let guides := st.2.2
  let st1 :=
    if m.Snap = SnapEdges ∨ m.Snap = SnapBoth then
      let monEffectiveWidth := (getEffectiveDimensions mon).1
      let monEffectiveHeight := (getEffectiveDimensions mon).2
      let otherEffectiveWidth := (getEffectiveDimensions other).1
      let otherEffectiveHeight := (getEffectiveDimensions other).2
      let px :=
        if goAbs (x - other.X - otherEffectiveWidth) < thresh then
          (other.X + otherEffectiveWidth,
           guides ++ [{ Ty := "vertical", Value := other.X + otherEffectiveWidth }])
        else if goAbs (x + monEffectiveWidth - other.X) < thresh then
          (other.X - monEffectiveWidth, guides ++ [{ Ty := "vertical", Value := other.X }])
        else if goAbs (x - other.X) < thresh then
          (other.X, guides ++ [{ Ty := "vertical", Value := other.X }])
        else (newX, guides)
      let py :=
        if goAbs (y - other.Y - otherEffectiveHeight) < thresh then
          (other.Y + otherEffectiveHeight,
           px.2 ++ [{ Ty := "horizontal", Value := other.Y + otherEffectiveHeight }])
        else if goAbs (y + monEffectiveHeight - other.Y) < thresh then
          (other.Y - monEffectiveHeight, px.2 ++ [{ Ty := "horizontal", Value := other.Y }])
        else if goAbs (y - other.Y) < thresh then
          (other.Y, px.2 ++ [{ Ty := "horizontal", Value := other.Y }])
        else (newY, px.2)
      (px.1, py.1, py.2)
    else (newX, newY, guides)
  if m.Snap = SnapCenters ∨ m.Snap = SnapBoth then
    let monEffectiveWidth := (getEffectiveDimensions mon).1
    let monEffectiveHeight := (getEffectiveDimensions mon).2
    let otherEffectiveWidth := (getEffectiveDimensions other).1
    let otherEffectiveHeight := (getEffectiveDimensions other).2
    let monCenterX := x + goDiv monEffectiveWidth 2
    let monCenterY := y + goDiv monEffectiveHeight 2
    let otherCenterX := other.X + goDiv otherEffectiveWidth 2
    let otherCenterY := other.Y + goDiv otherEffectiveHeight 2
    let cx :=
      if goAbs (monCenterX - otherCenterX) < thresh then
        (otherCenterX - goDiv monEffectiveWidth 2,
         st1.2.2 ++ [{ Ty := "vertical", Value := otherCenterX }])
      else (st1.1, st1.2.2)
    let cy :=
      if goAbs (monCenterY - otherCenterY) < thresh then
        (otherCenterY - goDiv monEffectiveHeight 2,
         cx.2 ++ [{ Ty := "horizontal", Value := otherCenterY }])
      else (st1.2.1, cx.2)
    (cx.1, cy.1, cy.2)
  else st1

/-- The loop of snapPosition over all monitors (src/models.go:253-306),
carrying the running index; a monitor is skipped when it is the selected one
or inactive. -/
def snapLoop (m : model) (mon : Monitor) (x y : ℤ) :
    List Monitor → ℕ → ℤ × ℤ × List guide → ℤ × ℤ × List guide
  | [], _, st => st
  | other :: rest, i, st =>
    let st1 := if (i : ℤ) = m.Selected ∨ other.Active = false then st
               else snapStep m mon x y other st
    snapLoop m mon x y rest (i + 1) st1

/-- snapPosition (src/models.go:248-319): the loop over all monitors followed
by the world-origin checks, which compare the original proposed `x`, `y`
against the threshold. -/
def snapPosition (m : model) (mon : Monitor) (x y : ℤ) : ℤ × ℤ × List guide :=
  let thresh : ℤ := m.SnapThresh
  let st := snapLoop m mon x y m.Monitors 0 (x, y, [])
  let sx := if goAbs x < thresh then ((0 : ℤ), st.2.2 ++ [{ Ty := "vertical", Value := 0 }])
            else (st.1, st.2.2)
  let sy := if goAbs y < thresh then ((0 : ℤ), sx.2 ++ [{ Ty := "horizontal", Value := 0 }])
            else (st.2.1, sx.2)
  (sx.1, sy.1, sy.2)

/-- The grid quantization step of dragMove (src/models.go:225-228): Go's `/`
on int32 truncates toward zero. -/
def gridQuantize (gridPx c : ℤ) : ℤ :=
  if 1 < gridPx then goDiv c gridPx * gridPx else c

/-- dragMove (src/models.go:211-236). -/
def dragMove (m : model) (msgX msgY : ℤ) : model :=
  if m.Selected < 0 ∨ (m.Monitors.length : ℤ) ≤ m.Selected then m
  else
    let mon := m.Monitors.getD m.Selected.toNat default
    if mon.Dragging = false then m
    else
      let w := termToWorld m msgX msgY
      let newX0 := w.1 - mon.DragOffX
      let newY0 := w.2 - mon.DragOffY
      let newX1 := gridQuantize m.GridPx newX0
      let newY1 := gridQuantize m.GridPx newY0
      let r := if m.Snap ≠ SnapOff then snapPosition m mon newX1 newY1
               else (newX1, newY1, m.Guides)
      { m with Monitors := m.Monitors.set m.Selected.toNat { mon with X := r.1, Y := r.2.1 },
               Guides := r.2.2 }

/-- countActiveMonitors (src/models.go:327-335). -/
def countActiveMonitors (m : model) : ℕ :=
  m.Monitors.countP (fun mon => mon.Active)

/-- canDisableMonitor (src/models.go:337-347). -/
def canDisableMonitor (m : model) (index : ℤ) : Bool :=
  if index < 0 ∨ (m.Monitors.length : ℤ) ≤ index then false
  else if (m.Monitors.getD index.toNat default).Active = false then true
  else decide (1 < countActiveMonitors m)

/-- The assignment `m.Monitors[i].Active = !m.Monitors[i].Active` of the
toggle handlers, as a monitor update. -/
def toggleActive (mon : Monitor) : Monitor := { mon with Active := !mon.Active }

/-- The activity toggle guarded by canDisableMonitor (src/models.go:1573-1584
and the right-click handler at src/models.go:1332-1341): flip `Active` of the
indexed monitor when the guard allows it, otherwise leave the model
unchanged. -/
def applyToggle (m : model) (index : ℤ) : model :=
  if canDisableMonitor m index then
    let mon := m.Monitors.getD index.toNat default
    { m with Monitors := m.Monitors.set index.toNat (toggleActive mon) }
  else m

/- Concrete fixtures used by the counterexamples and witnesses below.
Every numeric value is exactly representable in float32 and all
intermediate products/quotients are reproduced exactly by the float32
computation of the Go source. -/

/-- A 1920x1080 monitor rotated by 90 degrees (transform 1) at the origin. -/
def c1mon : Monitor :=
  { PxW := 1920, PxH := 1080, Scale := 1, X := 0, Y := 0, Active := true, Transform := 1 }

def c1m : model := { Monitors := [c1mon] }

def c1wmonA : Monitor :=
  { PxW := 1920, PxH := 1080, Scale := 1, X := 0, Y := 0, Active := true, Transform := 0 }

def c1wmonB : Monitor :=
  { PxW := 800, PxH := 600, Scale := 2, X := 2000, Y := 100, Active := true, Transform := 0 }

def c1wm : model := { Monitors := [c1wmonA, c1wmonB] }

/-- The monitor being dragged in the C2 scenario. -/
def c2drag : Monitor :=
  { PxW := 50, PxH := 50, Scale := 1, X := 0, Y := 0, Active := true, Transform := 0 }

/-- The stationary snap target in the C2 scenario: left edge at 1000,
effective width 50. -/
def c2other : Monitor :=
  { PxW := 50, PxH := 50, Scale := 1, X := 1000, Y := 0, Active := true, Transform := 0 }

def c2m : model :=
  { Monitors := [c2drag, c2other], Selected := 0, Snap := SnapEdges, SnapThresh := 100 }

/-- Variant of the C2 scenario with only the snap target in the list (the
dragged monitor is passed separately and `Selected = 1` skips nothing) and
threshold 60, so that at x = 970 the first edge rule misses (distance 80)
while the second and third both hit (distances 20 and 30). -/
def c2wm2 : model :=
  { Monitors := [c2other], Selected := 1, Snap := SnapEdges, SnapThresh := 60 }

/-- A 3-column, 10-row terminal: both usable dimensions are 3-3 = 0 and
10-10 = 0. -/
def c3m : model := { World := { Width := 500, Height := 500, TermW := 3, TermH := 10 } }

def c4monOdd : Monitor :=
  { PxW := 1920, PxH := 1080, Scale := 1, X := 0, Y := 0, Active := true, Transform := 1 }

def c4monEven : Monitor :=
  { PxW := 1920, PxH := 1080, Scale := 2, X := 0, Y := 0, Active := true, Transform := 0 }

def c5mon : Monitor :=
  { PxW := 50, PxH := 50, Scale := 1, X := 0, Y := 0, Active := true, Transform := 0 }

/-- Viewport with usable width 503-3 = 500 and usable height 510-10 = 500,
so termToWorld is the identity on the 500x500 canvas. -/
def c5m : model :=
  { Monitors := [c5mon], World := { Width := 500, Height := 500, TermW := 503, TermH := 510 } }

/-- Usable width 6-3 = 3 against canvas width 500: truncation loses
information in both directions. -/
def c6m : model := { World := { Width := 500, Height := 500, TermW := 6, TermH := 510 } }

/-- Usable width 8-3 = 5 divides the canvas width 500, and usable height
510-10 = 500 divides the canvas height 500. -/
def c6wm : model := { World := { Width := 500, Height := 500, TermW := 8, TermH := 510 } }

def c7m : model := { SnapThresh := 10 }

/-- An inactive monitor whose effective box contains the test point. -/
def c8mon : Monitor :=
  { PxW := 50, PxH := 50, Scale := 1, X := 0, Y := 0, Active := false, Transform := 0 }

def c8m : model :=
  { Monitors := [c8mon], World := { Width := 500, Height := 500, TermW := 503, TermH := 510 } }

def c10monA : Monitor := { PxW := 100, PxH := 100, Scale := 1, Active := true }

def c10monB : Monitor := { PxW := 100, PxH := 100, Scale := 1, Active := true }

def c10m : model := { Monitors := [c10monA, c10monB] }

/- General lemmas about the embedding. -/

theorem rtrunc_eq_floor (q : ℚ) (h : 0 ≤ q) : rtrunc q = ⌊q⌋ := by
  rw [rtrunc, if_neg (not_lt.mpr h)]

theorem rtrunc_intCast (n : ℤ) : rtrunc (n : ℚ) = n := by
  rw [rtrunc]
  rcases lt_or_le (n : ℚ) 0 with h | h
  · rw [if_pos h]
    have hcast : ((-n : ℤ) : ℚ) = -(n : ℚ) := by push_cast; ring
    rw [← hcast, Int.floor_intCast]
    ring
  · rw [if_neg (not_lt.mpr h), Int.floor_intCast]

theorem goAbs_eq_abs (x : ℤ) : goAbs x = |x| := by
  rw [goAbs]
  rcases lt_or_le x 0 with h | h
  · rw [if_pos h, abs_of_neg h]
  · rw [if_neg (not_lt.mpr h), abs_of_nonneg h]

/-- Replacing the monitor at a valid position changes the active count by
the difference of the two activity bits (stated additively to avoid natural
subtraction). -/
theorem countActive_set (l : List Monitor) :
    ∀ (i : ℕ) (a : Monitor), i < l.length →
      (l.set i a).countP (fun mon => mon.Active) + (l.getD i default).Active.toNat
      = l.countP (fun mon => mon.Active) + a.Active.toNat := by
  induction l with
  | nil =>
    intro i a h
    simp at h
  | cons b rest ih =>
    intro i a h
    cases i with
    | zero =>
      simp only [List.set_cons_zero, List.countP_cons, List.getD_cons_zero]
      rcases Bool.eq_false_or_eq_true a.Active with ha | ha <;>
        rcases Bool.eq_false_or_eq_true b.Active with hb | hb <;>
          simp [ha, hb]
    | succ j =>
      have hj : j < rest.length := by simpa using h
      simp only [List.set_cons_succ, List.countP_cons, List.getD_cons_succ]
      have := ih j a hj
      omega

theorem if_lt_max (a b : ℤ) : (if a < b then b else a) = max a b := by
  rcases lt_or_le a b with h | h
  · rw [if_pos h, max_eq_right h.le]
  · rw [if_neg (not_lt.mpr h), max_eq_left h]

/-- The imperative running-maximum loop of updateWorld computes the maxima of
`position + truncated scaled dimension` over the list, on each axis. -/
theorem updateWorld_foldl_max (l : List Monitor) (a b : ℤ) :
    l.foldl
      (fun acc mon =>
        let scaledWidth := rtrunc ((mon.PxW : ℚ) / mon.Scale)
        let scaledHeight := rtrunc ((mon.PxH : ℚ) / mon.Scale)
        (if acc.1 < mon.X + scaledWidth then mon.X + scaledWidth else acc.1,
         if acc.2 < mon.Y + scaledHeight then mon.Y + scaledHeight else acc.2))
      (a, b) =
    ((l.map (fun mon => mon.X + rtrunc ((mon.PxW : ℚ) / mon.Scale))).foldl max a,
     (l.map (fun mon => mon.Y + rtrunc ((mon.PxH : ℚ) / mon.Scale))).foldl max b) := by
  induction l generalizing a b with
  | nil => rfl
  | cons mon rest ih =>
    rw [List.foldl_cons, List.map_cons, List.map_cons, List.foldl_cons, List.foldl_cons,
      ← if_lt_max, ← if_lt_max]
    exact ih _ _

/-- One termToWorld step when the usable dimension `d` divides the canvas
dimension `W = d * k`: the rational quotient is exact, so truncation is the
identity. -/
theorem rtrunc_t2w_step (t d k W : ℤ) (hd : d ≠ 0) (hW : W = d * k) :
    rtrunc ((t : ℚ) * (W : ℚ) / (d : ℚ)) = t * k := by
  have hdq : (d : ℚ) ≠ 0 := Int.cast_ne_zero.mpr hd
  have hcast : (t : ℚ) * (W : ℚ) / (d : ℚ) = ((t * k : ℤ) : ℚ) := by
    rw [hW]
    push_cast
    field_simp
    ring
  rw [hcast, rtrunc_intCast]

/-- The corresponding worldToTerm step on an exact multiple `t * k`. -/
theorem rtrunc_w2t_step (t d k W : ℤ) (hd : d ≠ 0) (hk : k ≠ 0) (hW : W = d * k) :
    rtrunc (((t * k : ℤ) : ℚ) * (d : ℚ) / (W : ℚ)) = t := by
  have hdq : (d : ℚ) ≠ 0 := Int.cast_ne_zero.mpr hd
  have hkq : (k : ℚ) ≠ 0 := Int.cast_ne_zero.mpr hk
  have hcast : ((t * k : ℤ) : ℚ) * (d : ℚ) / (W : ℚ) = ((t : ℤ) : ℚ) := by
    rw [hW]
    push_cast
    field_simp
    ring
  rw [hcast, rtrunc_intCast]

/-- Full characterization of the hitTest loop: it yields -1 when no monitor's
effective box contains the point, and otherwise the running index of the
first monitor (in list order) whose box contains it. -/
theorem hitTestAux_spec (wx wy : ℤ) (ms : List Monitor) (k : ℕ) :
    (hitTestAux wx wy ms k = -1 ∧ ∀ mon ∈ ms, ¬ inEffectiveBox mon wx wy) ∨
    (∃ i : ℕ, i < ms.length ∧ hitTestAux wx wy ms k = ((k + i : ℕ) : ℤ) ∧
      inEffectiveBox (ms.getD i default) wx wy ∧
      ∀ j < i, ¬ inEffectiveBox (ms.getD j default) wx wy) := by
  induction ms generalizing k with
  | nil =>
    left
    exact ⟨rfl, by simp⟩
  | cons mon rest ih =>
    by_cases hbox : inEffectiveBox mon wx wy
    · right
      refine ⟨0, by simp, ?_, by simpa using hbox, ?_⟩
      · rw [hitTestAux, if_pos hbox]
        norm_num
      · intro j hj
        exact absurd hj (Nat.not_lt_zero j)
    · rcases ih (k + 1) with ⟨hval, hnone⟩ | ⟨i, hi, hval, hboxi, hearlier⟩
      · left
        constructor
        · rw [hitTestAux, if_neg hbox]
          exact hval
        · intro mon2 hmem
          rcases List.mem_cons.mp hmem with rfl | hmem2
          · exact hbox
          · exact hnone mon2 hmem2
      · right
        refine ⟨i + 1, by simpa using hi, ?_, by simpa using hboxi, ?_⟩
        · rw [hitTestAux, if_neg hbox, hval]
          congr 1
          omega
        · intro j hj
          cases j with
          | zero => simpa using hbox
          | succ j2 =>
            intro hcon
            exact hearlier j2 (by omega) (by simpa using hcon)

/-- The snapPosition loop leaves its state untouched when every monitor in
the list is inactive: inactive monitors are skipped. -/
theorem snapLoop_all_inactive (m : model) (mon : Monitor) (x y : ℤ)
    (ms : List Monitor) (i : ℕ) (st : ℤ × ℤ × List guide)
    (h : ∀ o ∈ ms, o.Active = false) :
    snapLoop m mon x y ms i st = st := by
  induction ms generalizing i with
  | nil => rfl
  | cons o rest ih =>
    have ho : o.Active = false := h o (List.mem_cons_self o rest)
    simp only [snapLoop, if_pos (Or.inr ho)]
    exact ih (i + 1) (fun o2 ho2 => h o2 (List.mem_cons_of_mem o ho2))

/-- Claim C3 (code bug evidence): at a 3-column, 10-row terminal the usable
dimensions computed by worldToTerm and termToWorld are exactly 0, and no
clamping to a positive minimum happens anywhere before they are used as
divisors, contradicting the claimed clamping. -/
theorem usable_dimensions_not_clamped :
    desktopWidth c3m = 0 ∧ desktopHeight c3m = 0 ∧
    ¬ 0 < desktopWidth c3m ∧ ¬ 0 < desktopHeight c3m := by
  decide

/-- Claim C4: for a monitor with positive pixel dimensions, positive scale
and transform in [0,7], getEffectiveDimensions returns the floors of the
scaled dimensions, swapped exactly when the transform is odd. -/
theorem getEffectiveDimensions_floor_swap (mon : Monitor)
    (_hw : 0 < mon.PxW) (_hh : 0 < mon.PxH) (hs : 0 < mon.Scale)
    (ht : 0 ≤ mon.Transform ∧ mon.Transform ≤ 7) :
    (mon.Transform % 2 = 1 →
      getEffectiveDimensions mon =
        (⌊(mon.PxH : ℚ) / mon.Scale⌋, ⌊(mon.PxW : ℚ) / mon.Scale⌋)) ∧
    (mon.Transform % 2 = 0 →
      getEffectiveDimensions mon =
        (⌊(mon.PxW : ℚ) / mon.Scale⌋, ⌊(mon.PxH : ℚ) / mon.Scale⌋)) := by
  have hW : rtrunc ((mon.PxW : ℚ) / mon.Scale) = ⌊(mon.PxW : ℚ) / mon.Scale⌋ :=
    rtrunc_eq_floor _ (div_nonneg (Nat.cast_nonneg _) hs.le)
  have hH : rtrunc ((mon.PxH : ℚ) / mon.Scale) = ⌊(mon.PxH : ℚ) / mon.Scale⌋ :=
    rtrunc_eq_floor _ (div_nonneg (Nat.cast_nonneg _) hs.le)
  constructor
  · intro hodd
    have hcase : mon.Transform = 1 ∨ mon.Transform = 3 ∨ mon.Transform = 5 ∨
        mon.Transform = 7 := by omega
    rw [getEffectiveDimensions]
    simp only [if_pos hcase, hW, hH]
  · intro heven
    have hcase : ¬(mon.Transform = 1 ∨ mon.Transform = 3 ∨ mon.Transform = 5 ∨
        mon.Transform = 7) := by omega
    rw [getEffectiveDimensions]
    simp only [if_neg hcase, hW, hH]

/-- Witness for C4 at the two examples of the claim: 1920x1080 at scale 1
with transform 1 gives (1080, 1920); at scale 2 with transform 0 gives
(960, 540). -/
theorem getEffectiveDimensions_floor_swap_witness :
    getEffectiveDimensions c4monOdd = (1080, 1920) ∧
    getEffectiveDimensions c4monEven = (960, 540) := by
  constructor
  · have h := (getEffectiveDimensions_floor_swap c4monOdd (by decide) (by decide)
      (by decide) (by decide)).1 (by decide)
    rw [h]
    norm_num [c4monOdd]
  · have h := (getEffectiveDimensions_floor_swap c4monEven (by decide) (by decide)
      (by decide) (by decide)).2 (by decide)
    rw [h]
    norm_num [c4monEven]

/-- Claim C9: the grid quantization of dragMove truncates toward zero: for a
non-negative coordinate it yields the usual floor multiple of the grid, and
for a negative non-multiple it yields the multiple of the grid closest to
zero, strictly greater than the input. -/
theorem gridQuantize_trunc_toward_zero (g c : ℤ) (hg : 1 < g) :
    (0 ≤ c →
      gridQuantize g c ≤ c ∧ c - gridQuantize g c < g ∧ g ∣ gridQuantize g c) ∧
    (c < 0 → ¬ g ∣ c →
      c < gridQuantize g c ∧ gridQuantize g c ≤ 0 ∧ gridQuantize g c - c < g ∧
      g ∣ gridQuantize g c) := by
  have hgpos : (0 : ℤ) < g := by omega
  constructor
  · intro hc
    rw [gridQuantize, if_pos hg, goDiv, Int.tdiv_eq_ediv hc hgpos.le]
    have hdr : g * (c / g) + c % g = c := Int.ediv_add_emod c g
    have hr0 : 0 ≤ c % g := Int.emod_nonneg c (by omega)
    have hrg : c % g < g := Int.emod_lt_of_pos c hgpos
    have hq : c / g * g = g * (c / g) := mul_comm _ _
    refine ⟨?_, ?_, ⟨c / g, mul_comm _ _⟩⟩
    · rw [hq]
      generalize hP : g * (c / g) = P at hdr
      omega
    · rw [hq]
      generalize hP : g * (c / g) = P at hdr
      omega
  · intro hc hnd
    rw [gridQuantize, if_pos hg, goDiv]
    have hneg : c.tdiv g = -((-c).tdiv g) := by
      rw [Int.neg_tdiv]
      ring
    rw [hneg, Int.tdiv_eq_ediv (by omega) hgpos.le]
    have hdr : g * (-c / g) + -c % g = -c := Int.ediv_add_emod (-c) g
    have hr0 : 0 ≤ -c % g := Int.emod_nonneg (-c) (by omega)
    have hrg : -c % g < g := Int.emod_lt_of_pos (-c) hgpos
    have hdnn : 0 ≤ -c / g := Int.ediv_nonneg (by omega) (by omega)
    have hgd0 : 0 ≤ g * (-c / g) := mul_nonneg hgpos.le hdnn
    have hrne : -c % g ≠ 0 := by
      intro h0
      apply hnd
      have ha : g ∣ -c := ⟨-c / g, by
        generalize hP : g * (-c / g) = P at hdr
        omega⟩
      have : c = -(-c) := by ring
      rw [this]
      exact dvd_neg.mpr ha
    have hkey : -(-c / g) * g = -(g * (-c / g)) := by ring
    rw [hkey]
    refine ⟨?_, ?_, ?_, ?_⟩
    · generalize hP : g * (-c / g) = P at hdr hgd0
      omega
    · generalize hP : g * (-c / g) = P at hdr hgd0
      omega
    · generalize hP : g * (-c / g) = P at hdr hgd0
      omega
    · exact dvd_neg.mpr (Dvd.intro _ rfl)

/-- Witness for C9: with grid 3, the negative coordinate -5 quantizes to -3
(toward zero, strictly greater), and 7 quantizes to the floor multiple 6. -/
theorem gridQuantize_trunc_toward_zero_witness :
    gridQuantize 3 (-5) = -3 ∧ (-5 : ℤ) < gridQuantize 3 (-5) ∧
    gridQuantize 3 (-5) ≤ 0 ∧ gridQuantize 3 7 = 6 ∧ gridQuantize 3 7 ≤ 7 ∧
    (3 : ℤ) ∣ gridQuantize 3 7 := by
  refine ⟨by decide, ?_, ?_, by decide, ?_, ?_⟩
  · exact ((gridQuantize_trunc_toward_zero 3 (-5) (by decide)).2 (by decide) (by decide)).1
  · exact ((gridQuantize_trunc_toward_zero 3 (-5) (by decide)).2 (by decide) (by decide)).2.1
  · exact ((gridQuantize_trunc_toward_zero 3 7 (by decide)).1 (by decide)).1
  · exact ((gridQuantize_trunc_toward_zero 3 7 (by decide)).1 (by decide)).2.2

/-- Claim C10: canDisableMonitor index is true exactly when the index is in
range and the indexed monitor is already inactive or more than one monitor
is active; consequently the guarded activity toggle leaves at least one
monitor active. -/
theorem canDisableMonitor_iff_and_toggle_preserves (m : model) (index : ℤ) :
    (canDisableMonitor m index = true ↔
      0 ≤ index ∧ index < m.Monitors.length ∧
        ((m.Monitors.getD index.toNat default).Active = false ∨
          1 < countActiveMonitors m)) ∧
    (canDisableMonitor m index = true →
      1 ≤ countActiveMonitors (applyToggle m index)) := by
  constructor
  · rw [canDisableMonitor]
    by_cases h1 : index < 0 ∨ (m.Monitors.length : ℤ) ≤ index
    · rw [if_pos h1]
      simp only [Bool.false_eq_true, false_iff]
      intro hcon
      omega
    · rw [if_neg h1]
      by_cases h2 : (m.Monitors.getD index.toNat default).Active = false
      · rw [if_pos h2]
        simp only [true_iff]
        exact ⟨by omega, by omega, Or.inl h2⟩
      · rw [if_neg h2]
        simp only [decide_eq_true_eq]
        constructor
        · intro h3
          exact ⟨by omega, by omega, Or.inr h3⟩
        · rintro ⟨-, -, h | h⟩
          · exact absurd h h2
          · exact h
  · intro hcan
    have hrange : ¬(index < 0 ∨ (m.Monitors.length : ℤ) ≤ index) := by
      intro hcon
      rw [canDisableMonitor, if_pos hcon] at hcan
      exact Bool.false_ne_true hcan
    have hidx : index.toNat < m.Monitors.length := by omega
    rw [applyToggle, if_pos hcan]
    have hkey := countActive_set m.Monitors index.toNat
      (toggleActive (m.Monitors.getD index.toNat default)) hidx
    have haA : (toggleActive (m.Monitors.getD index.toNat default)).Active =
        !(m.Monitors.getD index.toNat default).Active := rfl
    rw [haA] at hkey
    rw [countActiveMonitors]
    show 1 ≤ (m.Monitors.set index.toNat
      (toggleActive (m.Monitors.getD index.toNat default))).countP
      (fun mon => mon.Active)
    by_cases hact : (m.Monitors.getD index.toNat default).Active = false
    · -- the toggled monitor becomes active, so the count grows by one
      rw [hact] at hkey
      simp only [Bool.not_false, Bool.toNat_false, Bool.toNat_true] at hkey
      omega
    · -- the toggled monitor goes inactive, but more than one was active
      have hcnt : 1 < countActiveMonitors m := by
        rw [canDisableMonitor, if_neg hrange, if_neg hact] at hcan
        simpa using hcan
      rw [countActiveMonitors] at hcnt
      have hacttrue : (m.Monitors.getD index.toNat default).Active = true :=
        (Bool.not_eq_false _).mp hact
      rw [hacttrue] at hkey
      simp only [Bool.not_true, Bool.toNat_false, Bool.toNat_true] at hkey
      omega

/-- Witness for C10: with two active monitors, monitor 0 may be disabled, and
after the guarded toggle one monitor is still active. -/
theorem canDisableMonitor_toggle_witness :
    canDisableMonitor c10m 0 = true ∧
    1 ≤ countActiveMonitors (applyToggle c10m 0) := by
  refine ⟨by decide, ?_⟩
  exact (canDisableMonitor_iff_and_toggle_preserves c10m 0).2 (by decide)

/-- Claim C7: whenever the proposed coordinate on an axis is within the snap
threshold of 0, snapPosition resolves that axis to 0 and appends the
corresponding origin guide, in every snap mode and regardless of any
per-monitor snap computed by the loop (the check reads the original proposed
coordinates). -/
theorem snapPosition_origin_snap (m : model) (mon : Monitor) (x y : ℤ) :
    (goAbs x < m.SnapThresh →
      (snapPosition m mon x y).1 = 0 ∧
      ({ Ty := "vertical", Value := 0 } : guide) ∈ (snapPosition m mon x y).2.2) ∧
    (goAbs y < m.SnapThresh →
      (snapPosition m mon x y).2.1 = 0 ∧
      ({ Ty := "horizontal", Value := 0 } : guide) ∈ (snapPosition m mon x y).2.2) := by
  constructor
  · intro hx
    by_cases hy : goAbs y < m.SnapThresh
    · simp [snapPosition, hx, hy]
    · simp [snapPosition, hx, hy]
  · intro hy
    by_cases hx : goAbs x < m.SnapThresh
    · simp [snapPosition, hx, hy]
    · simp [snapPosition, hx, hy]

/-- Witness for C7: threshold 10 snaps the proposed position (5, -7) to the
origin on both axes and appends both origin guides (with an empty monitor
list the loop contributes nothing). -/
theorem snapPosition_origin_snap_witness :
    (snapPosition c7m default 5 (-7)).1 = 0 ∧
    ({ Ty := "vertical", Value := 0 } : guide) ∈ (snapPosition c7m default 5 (-7)).2.2 ∧
    (snapPosition c7m default 5 (-7)).2.1 = 0 := by
  have h := snapPosition_origin_snap c7m default 5 (-7)
  exact ⟨(h.1 (by decide)).1, (h.1 (by decide)).2, (h.2 (by decide)).1⟩

/-- Claim C5: hitTest converts the terminal point to world space via
termToWorld and returns the index of the first monitor (in stored order)
whose half-open effective box contains the world point, or -1 when no
monitor's box contains it; on overlap the lowest index wins. -/
theorem hitTest_first_containing_monitor (m : model) (x y : ℤ) :
    (hitTest m x y = -1 ∧
      ∀ mon ∈ m.Monitors,
        ¬ inEffectiveBox mon (termToWorld m x y).1 (termToWorld m x y).2) ∨
    (∃ i : ℕ, i < m.Monitors.length ∧ hitTest m x y = (i : ℤ) ∧
      inEffectiveBox (m.Monitors.getD i default)
        (termToWorld m x y).1 (termToWorld m x y).2 ∧
      ∀ j < i, ¬ inEffectiveBox (m.Monitors.getD j default)
        (termToWorld m x y).1 (termToWorld m x y).2) := by
  have h := hitTestAux_spec (termToWorld m x y).1 (termToWorld m x y).2 m.Monitors 0
  simpa [hitTest] using h

/-- Witness for C5: in a viewport mapping terminal cells to world pixels
1:1, the point (20, 20) lies in the box of the single 50x50 monitor at the
origin, and hitTest returns its index 0. -/
theorem hitTest_first_containing_monitor_witness : hitTest c5m 20 20 = 0 := by
  have ht2w : termToWorld c5m 20 20 = (20, 20) := by
    norm_num [termToWorld, rtrunc, desktopWidth, desktopHeight, desktopBorderMargin,
      desktopFooterHeight, c5m]
  have hbox : inEffectiveBox c5mon 20 20 := by
    norm_num [inEffectiveBox, getEffectiveDimensions, rtrunc, c5mon]
  rcases hitTest_first_containing_monitor c5m 20 20 with ⟨hv, hall⟩ | ⟨i, hi, hval, hrest⟩
  · exfalso
    have hmem : c5mon ∈ c5m.Monitors := by
      rw [c5m]
      exact List.mem_cons_self _ _
    have := hall c5mon hmem
    rw [ht2w] at this
    exact this hbox
  · have hi1 : i < 1 := by simpa [c5m] using hi
    interval_cases i
    simpa using hval

/-- Claim C8: hitTest does not consult the `Active` flag — a terminal point
whose world image lies in the effective box of an inactive monitor (and in
no earlier monitor's box) hits that monitor — while the snapPosition loop
skips inactive monitors (a list of only inactive monitors leaves the snap
state untouched). -/
theorem hitTest_ignores_active_flag :
    (∀ (m : model) (x y : ℤ) (i : ℕ),
      i < m.Monitors.length →
      (m.Monitors.getD i default).Active = false →
      inEffectiveBox (m.Monitors.getD i default)
        (termToWorld m x y).1 (termToWorld m x y).2 →
      (∀ j < i, ¬ inEffectiveBox (m.Monitors.getD j default)
        (termToWorld m x y).1 (termToWorld m x y).2) →
      hitTest m x y = (i : ℤ)) ∧
    (∀ (m : model) (mon : Monitor) (x y : ℤ) (st : ℤ × ℤ × List guide),
      (∀ o ∈ m.Monitors, o.Active = false) →
      snapLoop m mon x y m.Monitors 0 st = st) := by
  constructor
  · intro m x y i hi hinact hbox hearlier
    rcases hitTest_first_containing_monitor m x y with ⟨hv, hall⟩ | ⟨i2, hi2, hval, hbox2, hearlier2⟩
    · exfalso
      have hmem : m.Monitors.getD i default ∈ m.Monitors := by
        rw [List.getD_eq_getElem m.Monitors default hi]
        exact List.getElem_mem hi
      exact hall _ hmem hbox
    · rcases Nat.lt_trichotomy i i2 with hlt | heq | hgt
      · exact absurd hbox (hearlier2 i hlt)
      · rw [hval, heq]
      · exact absurd hbox2 (hearlier i2 hgt)
  · intro m mon x y st h
    exact snapLoop_all_inactive m mon x y m.Monitors 0 st h

/-- Witness for C8: the point (7, 7) lies in the box of the single inactive
monitor of `c8m`, and hitTest still returns its index 0; the snapPosition
loop over the same all-inactive list leaves its state unchanged. -/
theorem hitTest_ignores_active_flag_witness :
    hitTest c8m 7 7 = 0 ∧
    snapLoop c8m default 3 4 c8m.Monitors 0 (3, 4, []) = (3, 4, []) := by
  constructor
  · refine (hitTest_ignores_active_flag.1 c8m 7 7 0 (by decide) (by decide) ?_ ?_)
    · have ht2w : termToWorld c8m 7 7 = (7, 7) := by
        norm_num [termToWorld, rtrunc, desktopWidth, desktopHeight, desktopBorderMargin,
          desktopFooterHeight, c8m]
      rw [ht2w]
      norm_num [inEffectiveBox, getEffectiveDimensions, rtrunc, c8m, c8mon]
    · intro j hj
      exact absurd hj (Nat.not_lt_zero j)
  · exact hitTest_ignores_active_flag.2 c8m default 3 4 (3, 4, []) (by decide)

/-- Counterexample to claim C1: updateWorld uses the raw scaled pixel
dimensions, not the rotation-aware effective dimensions.  For the single
1920x1080 monitor with transform 1 at the origin the canvas width is
1920 + 500 = 2420, not the 1080 + 500 = 1580 the claim requires. -/
theorem updateWorld_ignores_transform_cex :
    (updateWorld c1m).World.Width = 2420 ∧
    c1mon.X + (getEffectiveDimensions c1mon).1 + worldPaddingPx = 1580 ∧
    (updateWorld c1m).World.Width ≠
      c1mon.X + (getEffectiveDimensions c1mon).1 + worldPaddingPx := by
  have heff : getEffectiveDimensions c1mon = (1080, 1920) := by
    norm_num [getEffectiveDimensions, rtrunc, c1mon]
  have hupd : (updateWorld c1m).World.Width = 2420 := by
    norm_num [updateWorld, rtrunc, c1m, c1mon, worldPaddingPx]
  refine ⟨hupd, ?_, ?_⟩
  · rw [heff]
    norm_num [c1mon, worldPaddingPx]
  · rw [hupd, heff]
    norm_num [c1mon, worldPaddingPx]

/-- Claim C1 amended: on a non-empty monitor list, updateWorld sets the
canvas width to `max(0, max over monitors of (X + trunc(PxW / Scale)))`
plus the padding constant, and the height analogously from the raw scaled
heights: the maximum starts from 0 and the rotation-aware swap of
getEffectiveDimensions is NOT applied to the world bounds. -/
theorem updateWorld_raw_scaled_bounds (m : model) (h : m.Monitors ≠ []) :
    (updateWorld m).World.Width =
      (m.Monitors.map (fun mon => mon.X + rtrunc ((mon.PxW : ℚ) / mon.Scale))).foldl max 0 +
        worldPaddingPx ∧
    (updateWorld m).World.Height =
      (m.Monitors.map (fun mon => mon.Y + rtrunc ((mon.PxH : ℚ) / mon.Scale))).foldl max 0 +
        worldPaddingPx := by
  have hne : ¬ m.Monitors.isEmpty = true := by
    cases hml : m.Monitors with
    | nil => exact absurd hml h
    | cons a l => simp [hml]
  rw [updateWorld, if_neg hne]
  rw [updateWorld_foldl_max]
  exact ⟨rfl, rfl⟩

/-- Witness for the amended C1: monitors of scaled widths 1920 (at X = 0)
and 400 (at X = 2000) and scaled heights 1080 (at Y = 0) and 300
(at Y = 100) give a canvas of 2400 + 500 by 1080 + 500. -/
theorem updateWorld_raw_scaled_bounds_witness :
    (updateWorld c1wm).World.Width = 2900 ∧
    (updateWorld c1wm).World.Height = 1580 := by
  have h := updateWorld_raw_scaled_bounds c1wm (by decide)
  constructor
  · rw [h.1]
    norm_num [c1wm, c1wmonA, c1wmonB, rtrunc, worldPaddingPx]
  · rw [h.2]
    norm_num [c1wm, c1wmonA, c1wmonB, rtrunc, worldPaddingPx]

/-- Counterexample to claim C2: with threshold 100, dragging to x = 1000
next to a monitor with left edge 1000 and effective width 50 matches both
the leading-to-trailing rule (snap to 1050) and the leading-to-leading rule
(snap to 1000); snapPosition keeps 1050 — the FIRST matching rule in the
`else if` chain — not the result of the last matching rule. -/
theorem snapPosition_last_match_cex :
    goAbs (1000 - c2other.X - (getEffectiveDimensions c2other).1) < c2m.SnapThresh ∧
    goAbs (1000 - c2other.X) < c2m.SnapThresh ∧
    (snapPosition c2m c2drag 1000 5000).1 =
      c2other.X + (getEffectiveDimensions c2other).1 ∧
    (snapPosition c2m c2drag 1000 5000).1 ≠ c2other.X := by
  have heff : getEffectiveDimensions c2other = (50, 50) := by
    norm_num [getEffectiveDimensions, rtrunc, c2other]
  have heffd : getEffectiveDimensions c2drag = (50, 50) := by
    norm_num [getEffectiveDimensions, rtrunc, c2drag]
  have hOX : c2other.X = 1000 := rfl
  have hOY : c2other.Y = 0 := rfl
  have hOA : c2other.Active = true := rfl
  have hmodeF : ¬(SnapEdges = SnapCenters ∨ SnapEdges = SnapBoth) := by decide
  have hsnap : (snapPosition c2m c2drag 1000 5000).1 = 1050 := by
    norm_num [snapPosition, snapLoop, snapStep, c2m, heff, heffd, hOX, hOY, hOA, goAbs,
      hmodeF]
  refine ⟨?_, ?_, ?_, ?_⟩
  · rw [heff, hOX]
    norm_num [goAbs, c2m]
  · rw [hOX]
    norm_num [goAbs, c2m]
  · rw [hsnap, heff, hOX]
    norm_num
  · rw [hsnap, hOX]
    norm_num

/-- Claim C2 amended: within the three edge-alignment checks for one axis
and one other active monitor, the checks form an `if / else if / else if`
chain — each later check is evaluated only when every earlier check failed —
so whenever two or more of the three rules match simultaneously, the
coordinate kept is that produced by the FIRST matching rule in evaluation
order, not the last: the resolved coordinate is rule 1's result when rule 1
matches, otherwise rule 2's when rule 2 matches, otherwise rule 3's when
rule 3 matches, otherwise the proposed coordinate (provided the proposed
coordinate is not itself within the threshold of the world origin, which
would override the axis afterwards). -/
theorem snapPosition_first_edge_rule_wins (m : model) (mon other : Monitor) (x y : ℤ)
    (hm : m.Monitors = [other]) (hsel : m.Selected ≠ 0)
    (hact : other.Active = true) (hmode : m.Snap = SnapEdges)
    (hx : ¬ goAbs x < m.SnapThresh) :
    (snapPosition m mon x y).1 =
      (if goAbs (x - other.X - (getEffectiveDimensions other).1) < m.SnapThresh then
        other.X + (getEffectiveDimensions other).1
      else if goAbs (x + (getEffectiveDimensions mon).1 - other.X) < m.SnapThresh then
        other.X - (getEffectiveDimensions mon).1
      else if goAbs (x - other.X) < m.SnapThresh then
        other.X
      else x) := by
  have hskip : ¬((((0 : ℕ) : ℤ)) = m.Selected ∨ other.Active = false) := by
    rintro (h | h)
    · apply hsel
      exact_mod_cast h.symm
    · rw [hact] at h
      simp at h
  have hloop : snapLoop m mon x y [other] 0 (x, y, []) =
      snapStep m mon x y other (x, y, []) := by
    rw [snapLoop, if_neg hskip]
    rw [snapLoop]
  have hstep1 : (snapStep m mon x y other (x, y, [])).1 =
      (if goAbs (x - other.X - (getEffectiveDimensions other).1) < m.SnapThresh then
        other.X + (getEffectiveDimensions other).1
      else if goAbs (x + (getEffectiveDimensions mon).1 - other.X) < m.SnapThresh then
        other.X - (getEffectiveDimensions mon).1
      else if goAbs (x - other.X) < m.SnapThresh then
        other.X
      else x) := by
    by_cases h1 : goAbs (x - other.X - (getEffectiveDimensions other).1) < m.SnapThresh
    · rw [if_pos h1, snapStep]
      simp only [hmode]
      simp [h1]
    · rw [if_neg h1]
      by_cases h2 : goAbs (x + (getEffectiveDimensions mon).1 - other.X) < m.SnapThresh
      · rw [if_pos h2, snapStep]
        simp only [hmode]
        simp [h1, h2]
      · rw [if_neg h2]
        by_cases h3 : goAbs (x - other.X) < m.SnapThresh
        · rw [if_pos h3, snapStep]
          simp only [hmode]
          simp [h1, h2, h3]
        · rw [if_neg h3, snapStep]
          simp only [hmode]
          simp [h1, h2, h3]
  have hfin : (snapPosition m mon x y).1 =
      (snapLoop m mon x y m.Monitors 0 (x, y, [])).1 := by
    rw [snapPosition]
    simp [hx]
  rw [hfin, hm, hloop, hstep1]

/-- Witness for the amended C2 at a tie between the second and third rules
only: with threshold 60 and x = 970, rule 1 misses (distance 80) while
rule 2 (snap to 1000 - 50 = 950) and rule 3 (snap to 1000) both match, and
the kept coordinate is rule 2's 950 — the first matching rule in order. -/
theorem snapPosition_first_edge_rule_wins_witness :
    (snapPosition c2wm2 c2drag 970 777).1 = 950 := by
  have heffo : getEffectiveDimensions c2other = (50, 50) := by
    norm_num [getEffectiveDimensions, rtrunc, c2other]
  have heffd : getEffectiveDimensions c2drag = (50, 50) := by
    norm_num [getEffectiveDimensions, rtrunc, c2drag]
  have hhx : ¬ goAbs (970 : ℤ) < c2wm2.SnapThresh := by
    norm_num [c2wm2, goAbs]
  have h := snapPosition_first_edge_rule_wins c2wm2 c2drag c2other 970 777
    rfl (by decide) rfl rfl hhx
  rw [h, heffo, heffd]
  norm_num [c2other, c2wm2, goAbs]

/-- Counterexample to claim C6: with canvas width 500 and usable width 3
(TermW = 6), the point (167, 0) maps to terminal column 1, back to world
column 166, and then to terminal column 0 — so
WorldToTerm∘TermToWorld∘WorldToTerm differs from WorldToTerm, although the
coordinate is within canvas bounds and the usable dimensions are positive. -/
theorem worldToTerm_roundtrip_cex :
    (0 < desktopWidth c6m ∧ 0 < desktopHeight c6m ∧
      (0 : ℤ) ≤ 167 ∧ (167 : ℤ) < c6m.World.Width ∧
      (0 : ℤ) ≤ 0 ∧ (0 : ℤ) < c6m.World.Height) ∧
    worldToTerm c6m
        (termToWorld c6m (worldToTerm c6m 167 0).1 (worldToTerm c6m 167 0).2).1
        (termToWorld c6m (worldToTerm c6m 167 0).1 (worldToTerm c6m 167 0).2).2 ≠
      worldToTerm c6m 167 0 := by
  have h1 : worldToTerm c6m 167 0 = (1, 0) := by
    norm_num [worldToTerm, rtrunc, desktopWidth, desktopHeight, desktopBorderMargin,
      desktopFooterHeight, c6m]
  have h2 : termToWorld c6m 1 0 = (166, 0) := by
    norm_num [termToWorld, rtrunc, desktopWidth, desktopHeight, desktopBorderMargin,
      desktopFooterHeight, c6m]
  have h3 : worldToTerm c6m 166 0 = (0, 0) := by
    norm_num [worldToTerm, rtrunc, desktopWidth, desktopHeight, desktopBorderMargin,
      desktopFooterHeight, c6m]
  refine ⟨by decide, ?_⟩
  rw [h1]
  show worldToTerm c6m (termToWorld c6m 1 0).1 (termToWorld c6m 1 0).2 ≠ (1, 0)
  rw [h2]
  show worldToTerm c6m 166 0 ≠ (1, 0)
  rw [h3]
  decide

/-- Claim C6 amended: the truncation round-trip
WorldToTerm∘TermToWorld∘WorldToTerm = WorldToTerm holds whenever the usable
terminal dimensions are positive and divide the canvas dimensions exactly
(then both truncated divisions are exact); the counterexample shows it can
fail when the usable width does not divide the canvas width. -/
theorem worldToTerm_roundtrip_idempotent (m : model) (x y : ℤ)
    (hdw : 0 < desktopWidth m) (hdh : 0 < desktopHeight m)
    (hW : 0 < m.World.Width) (hH : 0 < m.World.Height)
    (h1 : desktopWidth m ∣ m.World.Width) (h2 : desktopHeight m ∣ m.World.Height) :
    worldToTerm m
        (termToWorld m (worldToTerm m x y).1 (worldToTerm m x y).2).1
        (termToWorld m (worldToTerm m x y).1 (worldToTerm m x y).2).2 =
      worldToTerm m x y := by
  obtain ⟨k1, hk1⟩ := h1
  obtain ⟨k2, hk2⟩ := h2
  have hd1 : desktopWidth m ≠ 0 := by omega
  have hd2 : desktopHeight m ≠ 0 := by omega
  have hk1ne : k1 ≠ 0 := by
    rintro rfl
    rw [mul_zero] at hk1
    omega
  have hk2ne : k2 ≠ 0 := by
    rintro rfl
    rw [mul_zero] at hk2
    omega
  simp only [worldToTerm, termToWorld, Prod.mk.injEq]
  refine ⟨?_, ?_⟩
  · rw [add_sub_cancel_right]
    rw [rtrunc_t2w_step _ (desktopWidth m) k1 m.World.Width hd1 hk1]
    rw [rtrunc_w2t_step _ (desktopWidth m) k1 m.World.Width hd1 hk1ne hk1]
  · rw [add_sub_cancel_right]
    rw [rtrunc_t2w_step _ (desktopHeight m) k2 m.World.Height hd2 hk2]
    rw [rtrunc_w2t_step _ (desktopHeight m) k2 m.World.Height hd2 hk2ne hk2]

/-- Witness for the amended C6: usable width 5 divides canvas width 500 and
usable height 500 divides canvas height 500, and the round-trip from
(167, 3) reproduces WorldToTerm(167, 3) = (1, 3). -/
theorem worldToTerm_roundtrip_idempotent_witness :
    worldToTerm c6wm
        (termToWorld c6wm (worldToTerm c6wm 167 3).1 (worldToTerm c6wm 167 3).2).1
        (termToWorld c6wm (worldToTerm c6wm 167 3).1 (worldToTerm c6wm 167 3).2).2 =
      worldToTerm c6wm 167 3 ∧
    worldToTerm c6wm 167 3 = (1, 3) := by
  constructor
  · exact worldToTerm_roundtrip_idempotent c6wm 167 3 (by decide) (by decide)
      (by decide) (by decide) (by decide) (by decide)
  · norm_num [worldToTerm, rtrunc, desktopWidth, desktopHeight, desktopBorderMargin,
      desktopFooterHeight, c6wm]

end HyprMon
